import Mathlib

/-!
Shallow embedding of the service load-balancer controller of
inspurDTest/cloud-provider (src/controllers/service/controller.go and the
endpointslice helpers file), together with theorems settling the frozen
claims about it.

Modelling conventions:
* Kubernetes objects are records of the fields the controller reads.
  Go maps (labels, taints by key, conditions by type) are association lists;
  lookups mirror Go map-access semantics (absent key reads the zero value).
* Side effects (provider calls, API patches) are recorded as an ordered
  event list returned by each modelled function, so that claims about
  which calls happen, and in which order, are statements about that list.
  The event-recorder notifications (cluster events) are not modelled: no
  claim is about them.
* API patches (PatchService / PatchEndpointSlice) are modelled as always
  succeeding: the claims under study are about control flow around the
  provider, not about apiserver write failures.
* Durations are natural numbers of seconds; timestamps are `Option Nat`
  (a set deletion timestamp in Kubernetes is non-zero, so `isNone` models
  `IsZero` of a `*metav1.Time` pointer).
* The cloud provider is a parameter giving the outcome of each call, so
  theorems quantify over every provider behaviour.
* The few symbols of this repository that the controller imports from its
  `service/helpers` package, and the workqueue rate limiter from
  client-go, are not under src/; the corresponding definitions are marked
  `Modelled from the spec:` in their doc comment.
-/

namespace CloudProvider

/-- Constant from source (controller.go): annotation key of the current
load-balancer identifier. -/
def ServiceAnnotationLoadBalancerID : String := "inspur.com/load-balancer-id"

/-- Constant from source (controller.go): annotation key of the old
load-balancer identifier. -/
def ServiceAnnotationLoadBalancerOldID : String := "inspur.com/load-balancer-old-id"

/-- Constant from source (controller.go): cluster-autoscaler deletion taint key. -/
def ToBeDeletedTaint : String := "ToBeDeletedByClusterAutoscaler"

/-- Constant from source: `v1.LabelNodeExcludeBalancers`. -/
def LabelNodeExcludeBalancers : String := "node.kubernetes.io/exclude-from-external-load-balancers"

/-- Constant from source: `v1.ServiceTypeLoadBalancer`. -/
def ServiceTypeLoadBalancer : String := "LoadBalancer"

/-- Constant from source: `v1.ServiceExternalTrafficPolicyLocal`. -/
def ExternalTrafficPolicyLocal : String := "Local"

/-- Constant from source: `v1.NodeReady` condition type. -/
def NodeReadyCond : String := "Ready"

/-- Constant from source: `v1.ConditionTrue`. -/
def ConditionTrue : String := "True"

/-- Constant from source (endpointslice helpers file): the cleanup finalizer
string added to EndpointSlices. -/
def EpsLoadBalancerCleanupFinalizer : String := "endpointslice.kubernetes.io/load-balancer-cleanup"

/-- Modelled from the spec: the service-side cleanup "finalizer marker"
(`servicehelper.LoadBalancerCleanupFinalizer`; the `service/helpers` package
is not under src/). Its exact string value is irrelevant to the claims. -/
def ServiceLoadBalancerCleanupFinalizer : String := "service.kubernetes.io/load-balancer-cleanup"

/-- The empty string, used for the `defaultSetting` arguments in the source. -/
def emptyString : String := ""

/-- Substring test on the error message, from `strings.Contains` in
`processLoadBalancerDelete`. -/
def strNotFound : String := "not found"

/-- Substring test on the lowered error message in `syncLoadBalancerIfNeeded`. -/
def strConflict : String := "conflict"

/-- Error message from source: "service status returned by EnsureLoadBalancer is nil". -/
def nilStatusMsg : String := "service status returned by EnsureLoadBalancer is nil"

/-- Error standing for the nil-pointer dereference Go would perform in
`processServiceDeletion` when a cache entry has a nil `state`. -/
def nilStateMsg : String := "nil cached service state"

/-- One `v1.LoadBalancerIngress` entry; `ports` stands for the ingress fields
that `ingressEqual` in the source does not compare. -/
structure LoadBalancerIngress where
  ip : String
  hostname : String
  ipMode : Option String
  ports : List Nat
deriving DecidableEq

/-- `v1.LoadBalancerStatus`. -/
structure LoadBalancerStatus where
  ingress : List LoadBalancerIngress
deriving DecidableEq

/-- The facets of a `v1.Service` that the controller reads. -/
structure Service where
  ns : String
  name : String
  uid : String
  specType : String
  loadBalancerClass : Option String
  externalTrafficPolicy : String
  annotations : List (String × String)
  finalizers : List String
  deletionTimestamp : Option Nat
  statusLoadBalancer : LoadBalancerStatus
deriving DecidableEq

/-- The facets of a `discoveryv1.EndpointSlice` that the controller reads. -/
structure EndpointSlice where
  ns : String
  name : String
  addressType : String
  labels : List (String × String)
  finalizers : List String
  deletionTimestamp : Option Nat
deriving DecidableEq

/-- The facets of a `v1.Node` that the node predicates read. `taintKeys` are
the taint keys, `conditions` the (type, status) pairs. -/
structure Node where
  name : String
  providerID : String
  labels : List (String × String)
  taintKeys : List String
  conditions : List (String × String)
  deletionTimestamp : Option Nat
deriving DecidableEq

/-- Go map read `service.Annotations[key]` as an optional value. -/
def lookupAnnot (svc : Service) (key : String) : Option String :=
  (svc.annotations.find? (fun a => a.1 == key)).map (fun a => a.2)

/-- `getStringFromServiceAnnotation` from source (the logging removed): the
annotation value when the key is present, else the default. -/
def getStringFromServiceAnnot (svc : Service) (key defaultSetting : String) : String :=
  match lookupAnnot svc key with
  | some v => v
  | none => defaultSetting

/-- `strings.Contains` on the underlying character lists. -/
def listContainsSub (hay sub : List Char) : Bool :=
  (List.range (hay.length + 1)).any (fun i => ((hay.drop i).take sub.length) == sub)

/-- `strings.Contains (s, sub)`. -/
def strContains (s sub : String) : Bool :=
  listContainsSub s.data sub.data

/-- `wantsLoadBalancer` from source: type is LoadBalancer and no
load-balancer class is set. -/
def wantsLoadBalancer (svc : Service) : Bool :=
  svc.specType == ServiceTypeLoadBalancer && svc.loadBalancerClass == none

/-- Modelled from the spec: `servicehelper.HasLBFinalizer` (the
`service/helpers` package is not under src/) — the service carries the
cleanup finalizer marker. -/
def svcHasLBFinalizer (svc : Service) : Bool :=
  svc.finalizers.any (fun f => f == ServiceLoadBalancerCleanupFinalizer)

/-- `HasLBFinalizer` for EndpointSlices, from the endpointslice helpers file. -/
def epsHasLBFinalizer (eps : EndpointSlice) : Bool :=
  eps.finalizers.any (fun f => f == EpsLoadBalancerCleanupFinalizer)

/-- `needsCleanup` from source. -/
def needsCleanup (svc : Service) : Bool :=
  if !svcHasLBFinalizer svc then false
  else if svc.deletionTimestamp.isSome then true
  else if svc.specType != ServiceTypeLoadBalancer then true
  else false

/-- `epsNeedsCleanup` from source. -/
def epsNeedsCleanup (eps : EndpointSlice) : Bool :=
  if !epsHasLBFinalizer eps then false
  else if eps.deletionTimestamp.isSome then true
  else false

/-- `NodeConditionPredicate` from source. -/
abbrev NodeConditionPredicate := Node → Bool

/-- `nodeIncludedPredicate` from source: no exclusion label. -/
def nodeIncludedPredicate (node : Node) : Bool :=
  !(node.labels.any (fun l => l.1 == LabelNodeExcludeBalancers))

/-- `nodeUnTaintedPredicate` from source: no cluster-autoscaler deletion taint. -/
def nodeUnTaintedPredicate (node : Node) : Bool :=
  node.taintKeys.all (fun k => k != ToBeDeletedTaint)

/-- `nodeReadyPredicate` from source: the first NodeReady condition decides;
no NodeReady condition means not ready. -/
def nodeReadyPredicate (node : Node) : Bool :=
  match node.conditions.find? (fun c => c.1 == NodeReadyCond) with
  | some c => c.2 == ConditionTrue
  | none => false

/-- `nodeNotDeletedPredicate` from source: deletion timestamp is zero. -/
def nodeNotDeletedPredicate (node : Node) : Bool :=
  node.deletionTimestamp.isNone

/-- `allNodePredicates` from source. -/
def allNodePredicates : List NodeConditionPredicate :=
  [nodeIncludedPredicate, nodeUnTaintedPredicate, nodeReadyPredicate]

/-- `etpLocalNodePredicates` from source. Note: in this repository the list
still contains `nodeReadyPredicate` (controller.go lines 1339-1343). -/
def etpLocalNodePredicates : List NodeConditionPredicate :=
  [nodeIncludedPredicate, nodeUnTaintedPredicate, nodeReadyPredicate]

/-- `stableNodeSetPredicates` from source. -/
def stableNodeSetPredicates : List NodeConditionPredicate :=
  [nodeNotDeletedPredicate, nodeIncludedPredicate, nodeUnTaintedPredicate]

/-- Modelled from the spec: the reduced predicate set the spec prescribes for
services with external traffic policy "Local" when the stability flag is off —
the full set with the readiness predicate dropped. Kept only to compare the
source's `etpLocalNodePredicates` against the spec's words. -/
def specEtpLocalNodePredicates : List NodeConditionPredicate :=
  [nodeIncludedPredicate, nodeUnTaintedPredicate]

/-- `getNodePredicatesForService` from source; the global feature-gate read
`utilfeature.DefaultFeatureGate.Enabled(features.StableLoadBalancerNodeSet)`
is the explicit `stableNodeSetEnabled` parameter. -/
def getNodePredicatesForService (stableNodeSetEnabled : Bool) (svc : Service) :
    List NodeConditionPredicate :=
  if stableNodeSetEnabled then stableNodeSetPredicates
  else if svc.externalTrafficPolicy == ExternalTrafficPolicyLocal then etpLocalNodePredicates
  else allNodePredicates

/-- `respectsPredicates` from source. -/
def respectsPredicates (node : Node) (predicates : List NodeConditionPredicate) : Bool :=
  predicates.all (fun p => p node)

/-- `filterWithPredicates` from source. -/
def filterWithPredicates (nodes : List Node) (predicates : List NodeConditionPredicate) :
    List Node :=
  nodes.filter (fun n => respectsPredicates n predicates)

/-- The Go map `map[string]protoNode` built by `nodesSufficientlyEqual`, read
at a key: the last node of that name wins, and only the providerID field is
kept (the source's `protoNode` holds exactly `providerID`). -/
def nodeMapGet (nodes : List Node) (nodeName : String) : Option String :=
  ((nodes.filter (fun n => n.name == nodeName)).getLast?).map (fun n => n.providerID)

/-- `reflect.DeepEqual (mOld, mNew)` on the two name-keyed maps of
`nodesSufficientlyEqual`: same key set and same providerID values. -/
def nodeMapsEqual (oldNodes newNodes : List Node) : Bool :=
  oldNodes.all (fun n => nodeMapGet newNodes n.name == nodeMapGet oldNodes n.name) &&
  newNodes.all (fun n => nodeMapGet oldNodes n.name == nodeMapGet newNodes n.name)

/-- `nodesSufficientlyEqual` from source: equal list lengths, then
`DeepEqual` of the name-keyed providerID maps. -/
def nodesSufficientlyEqual (oldNodes newNodes : List Node) : Bool :=
  (oldNodes.length == newNodes.length) && nodeMapsEqual oldNodes newNodes

/-- The per-service last-synced node sets (`Controller.lastSyncedNodes`),
as an association list read at the first matching key (writes prepend). -/
abbrev Tracker := List (String × List Node)

/-- `cache.MetaNamespaceKeyFunc`: namespace/name. -/
def svcKey (svc : Service) : String :=
  svc.ns ++ "/" ++ svc.name

/-- `getLastSyncedNodes` from source: Go map read, nil (empty) when absent. -/
def trackerGet (tracker : Tracker) (key : String) : List Node :=
  match tracker.find? (fun e => e.1 == key) with
  | some e => e.2
  | none => []

/-- `storeLastSyncedNodes` from source: Go map write. -/
def trackerSet (tracker : Tracker) (key : String) (nodes : List Node) : Tracker :=
  (key, nodes) :: tracker

/-- Outcome of the provider's `UpdateLoadBalancer` call. -/
inductive UpdateLBResult where
  | ok
  | implementedElsewhere
  | failed (msg : String)
deriving DecidableEq

/-- Provider behaviour seen by the node-resync path: the outcome of
`UpdateLoadBalancer` and of the follow-up `GetLoadBalancer` (`none` = the get
itself errors, `some b` = the load balancer exists iff `b`). -/
structure NodeSyncProvider where
  updateResult : UpdateLBResult
  getResult : Option Bool
deriving DecidableEq

/-- `lockedUpdateLoadBalancerHosts` from source, reduced to its error result:
update ok or ImplementedElsewhere is success; on any other error the load
balancer is looked up, and a confirmed-gone load balancer downgrades the
failure to success. -/
def lockedUpdateLoadBalancerHosts (p : NodeSyncProvider) : Option String :=
  match p.updateResult with
  | UpdateLBResult.ok => none
  | UpdateLBResult.implementedElsewhere => none
  | UpdateLBResult.failed msg =>
    match p.getResult with
    | none => some msg
    | some stillThere => if stillThere then some msg else none

/-- Result of one `nodeSyncService` pass: whether the caller should retry,
the tracker after the pass, and whether `UpdateLoadBalancer` was called. -/
structure NodeSyncOut where
  retry : Bool
  tracker : Tracker
  updateCalled : Bool
deriving DecidableEq

/-- `nodeSyncService` from source. `listerNodes` is the node lister's answer
(`none` = list error). The filtered new set is stored in the tracker before
the equality comparison and before the provider update, hence independently
of the update's outcome. -/
def nodeSyncService (stableNodeSetEnabled : Bool) (p : NodeSyncProvider)
    (listerNodes : Option (List Node)) (tracker : Tracker) (svcOpt : Option Service) :
    NodeSyncOut :=
  match svcOpt with
  | none => ⟨false, tracker, false⟩
  | some svc =>
    if !wantsLoadBalancer svc then ⟨false, tracker, false⟩
    else
      match listerNodes with
      | none => ⟨true, tracker, false⟩
      | some nodes =>
        let preds := getNodePredicatesForService stableNodeSetEnabled svc
        let newNodes := filterWithPredicates nodes preds
        let oldNodes := filterWithPredicates (trackerGet tracker (svcKey svc)) preds
        let tracker2 := trackerSet tracker (svcKey svc) newNodes
        if nodesSufficientlyEqual oldNodes newNodes then ⟨false, tracker2, false⟩
        else
          match lockedUpdateLoadBalancerHosts p with
          | some _ => ⟨true, tracker2, true⟩
          | none => ⟨false, tracker2, true⟩

/-- One observable side effect of a reconciliation pass: a provider call
(`prov…`) or an apiserver patch (`api…`), in program order. -/
inductive Event where
  | provDelete (lbId : String)
  | provEnsure (lbId : String)
  | apiAddSvcFinalizer
  | apiAddEpsFinalizer (epsName : String)
  | apiRemoveSvcFinalizer
  | apiPatchEps (epsName : String)
  | apiRemoveAnnot (key : String)
  | apiPatchStatus (st : LoadBalancerStatus)
deriving DecidableEq

/-- Whether an event is a cloud-provider call. -/
def Event.isProviderCall : Event → Bool
  | Event.provDelete _ => true
  | Event.provEnsure _ => true
  | _ => false

/-- Whether an event is an annotation-removing patch. -/
def Event.isRemoveAnnot : Event → Bool
  | Event.apiRemoveAnnot _ => true
  | _ => false

/-- Whether an event is an add-EndpointSlice-finalizer patch. -/
def Event.isAddEpsFinalizer : Event → Bool
  | Event.apiAddEpsFinalizer _ => true
  | _ => false

/-- Outcome of the provider's `EnsureLoadBalancer` call: a status pointer
(possibly nil), the `ImplementedElsewhere` sentinel, or an error. -/
inductive EnsureLBResult where
  | ok (status : Option LoadBalancerStatus)
  | implementedElsewhere
  | failed (msg : String)
deriving DecidableEq

/-- Provider behaviour seen by the service-sync path: the outcome of
`EnsureLoadBalancerDeleted` for each identifier (`none` = success, `some msg`
= error with message `msg`) and of `EnsureLoadBalancer` for each identifier. -/
structure Provider where
  deleteLB : String → Option String
  ensureLB : String → EnsureLBResult

/-- `processLoadBalancerDelete` from source: call the provider delete for the
given identifier; an error whose message contains "not found" is ignored. -/
def processLoadBalancerDelete (p : Provider) (lbId : String) :
    Option String × List Event :=
  match p.deleteLB lbId with
  | none => (none, [Event.provDelete lbId])
  | some msg =>
    if strContains msg strNotFound then (none, [Event.provDelete lbId])
    else (some msg, [Event.provDelete lbId])

/-- Whether `processLoadBalancerDelete` would succeed for this identifier:
the provider returns no error, or a "not found" error. -/
def deleteTolerated (p : Provider) (lbId : String) : Bool :=
  match p.deleteLB lbId with
  | none => true
  | some msg => strContains msg strNotFound

/-- `addFinalizer` from source: patch the service unless the finalizer is
already present. -/
def addFinalizer (svc : Service) : List Event :=
  if svcHasLBFinalizer svc then [] else [Event.apiAddSvcFinalizer]

/-- `addEndpointSliceFinalizer` from source: its body begins with
`return nil` (controller.go line 1191), so it returns success without
issuing any patch; the finalizer-adding code below that line is
unreachable. -/
def addEndpointSliceFinalizer (_eps : EndpointSlice) : List Event :=
  []

/-- `removeFinalizer` from source: patch only when the finalizer is present
and the service needs cleanup. -/
def removeFinalizer (svc : Service) : List Event :=
  if !svcHasLBFinalizer svc then []
  else if !needsCleanup svc then []
  else [Event.apiRemoveSvcFinalizer]

/-- Modelled from the spec: `servicehelper.HasAnnoation` (the
`service/helpers` package is not under src/) — annotation-key presence on
the service. -/
def HasAnnoation (svc : Service) (key : String) : Bool :=
  (lookupAnnot svc key).isSome

/-- `removeAnnotationLbId` from source. The first guard of the source has a
commented-out body and no effect; the function returns success with no patch
when the service has a deletion timestamp, or when the annotation is absent;
otherwise it patches the annotation away. -/
def removeAnnotationLbId (svc : Service) (annotKey : String) : List Event :=
  if svc.deletionTimestamp.isSome then []
  else if !HasAnnoation svc annotKey then []
  else [Event.apiRemoveAnnot annotKey]

/-- `removeEndpointSliceFinalizer` from source: the guard reads
`if HasLBFinalizer(eps) { return nil }` (controller.go line 1248), so the
function returns success without a patch exactly when the finalizer IS
present, and issues the (no-op) removal patch only when it is absent. -/
def removeEndpointSliceFinalizer (eps : EndpointSlice) : List Event :=
  if epsHasLBFinalizer eps then []
  else [Event.apiPatchEps eps.name]

/-- `removeEndpointSliceFinalizerByService` from source: over the lister's
EndpointSlices of the service, call `removeEndpointSliceFinalizer` on each
one that needs cleanup. -/
def removeEndpointSliceFinalizerByService : List EndpointSlice → List Event
  | [] => []
  | eps :: rest =>
    (if epsNeedsCleanup eps then removeEndpointSliceFinalizer eps else []) ++
      removeEndpointSliceFinalizerByService rest

/-- The `lhs.IPMode != rhs.IPMode` check of `ingressEqual` in the source:
`IPMode` is `*LoadBalancerIPMode`, so this is a Go pointer comparison. At
`patchStatus`'s call site the compared statuses are always distinct fresh
allocations (`previousStatus` is a `DeepCopy` of the service status,
`newStatus` comes from the provider or is a fresh literal), so two non-nil
pointers never alias: the pointers compare equal exactly when both are nil,
regardless of the pointed-to values. -/
def ipModePointerEqual (lhs rhs : Option String) : Bool :=
  lhs.isNone && rhs.isNone

/-- `ingressEqual` from the endpointslice helpers file: IP and hostname
compared by value, IP-mode compared as pointers (see
`ipModePointerEqual`); other ingress fields are not compared. -/
def ingressEqual (lhs rhs : LoadBalancerIngress) : Bool :=
  if lhs.ip != rhs.ip then false
  else if lhs.hostname != rhs.hostname then false
  else if !(ipModePointerEqual lhs.ipMode rhs.ipMode) then false
  else true

/-- `ingressSliceEqual` from the endpointslice helpers file. -/
def ingressSliceEqual (lhs rhs : List LoadBalancerIngress) : Bool :=
  if lhs.length != rhs.length then false
  else (List.zip lhs rhs).all (fun pr => ingressEqual pr.1 pr.2)

/-- `LoadBalancerStatusEqual` from the endpointslice helpers file. -/
def LoadBalancerStatusEqual (l r : LoadBalancerStatus) : Bool :=
  ingressSliceEqual l.ingress r.ingress

/-- Modelled from the spec: the claim's field-wise comparison of an ingress
entry — IP, hostname and IP-mode all compared as values. Kept only to state
the counterexample against the source's pointer comparison of IP-mode. -/
def specIngressEqual (lhs rhs : LoadBalancerIngress) : Bool :=
  lhs.ip == rhs.ip && lhs.hostname == rhs.hostname && lhs.ipMode == rhs.ipMode

/-- Modelled from the spec: status equality under the claim's field-wise
ingress comparison. -/
def specStatusEqual (l r : LoadBalancerStatus) : Bool :=
  (l.ingress.length == r.ingress.length) &&
    (List.zip l.ingress r.ingress).all (fun pr => specIngressEqual pr.1 pr.2)

/-- `patchStatus` from source, reduced to whether a PatchService write is
issued: nil new status → no write; both statuses non-nil and equal → no
write; otherwise a write. -/
def patchStatus (previousStatus newStatus : Option LoadBalancerStatus) : Bool :=
  match newStatus with
  | none => false
  | some n =>
    match previousStatus with
    | some prev => !(LoadBalancerStatusEqual prev n)
    | none => true

/-- The events `patchStatus` emits at the call site in
`syncLoadBalancerIfNeeded` (where `previousStatus` is never nil: it is a
`DeepCopy` of the service's status). -/
def patchStatusEvents (previousStatus : LoadBalancerStatus)
    (newStatus : Option LoadBalancerStatus) : List Event :=
  match newStatus with
  | none => []
  | some n =>
    if LoadBalancerStatusEqual previousStatus n then [] else [Event.apiPatchStatus n]

/-- The `v1.LoadBalancerStatus{}` literal of the source. -/
def emptyLBStatus : LoadBalancerStatus := ⟨[]⟩

/-- The common tail of `syncLoadBalancerIfNeeded` (run by both branches when
no early return happened): remove finalizers of EndpointSlices needing
cleanup, strip the old-identifier annotation, patch the status if changed. -/
def syncCommonTail (svc : Service) (epss : List EndpointSlice)
    (previousStatus : LoadBalancerStatus) (newStatus : Option LoadBalancerStatus) :
    List Event :=
  removeEndpointSliceFinalizerByService epss ++
    removeAnnotationLbId svc ServiceAnnotationLoadBalancerOldID ++
    patchStatusEvents previousStatus newStatus

/-- The guarded delete of `syncLoadBalancerIfNeeded`:
`if len(lbID) != 0 { processLoadBalancerDelete … }`. -/
def optDelete (p : Provider) (lbId : String) : Option String × List Event :=
  if lbId.length != 0 then processLoadBalancerDelete p lbId else (none, [])

/-- The delete arm of `syncLoadBalancerIfNeeded` (controller.go lines
481-512): delete by old identifier if non-empty, then by current identifier
if non-empty, then remove the service finalizer and strip the
current-identifier annotation. Error from either delete aborts. -/
def syncDeleteBranch (p : Provider) (svc : Service) : Option String × List Event :=
  let r1 := optDelete p
    (getStringFromServiceAnnot svc ServiceAnnotationLoadBalancerOldID emptyString)
  if r1.1.isSome then r1
  else
    let r2 := optDelete p
      (getStringFromServiceAnnot svc ServiceAnnotationLoadBalancerID emptyString)
    if r2.1.isSome then (r2.1, r1.2 ++ r2.2)
    else
      (none, r1.2 ++ r2.2 ++ removeFinalizer svc ++
        removeAnnotationLbId svc ServiceAnnotationLoadBalancerID)

/-- Result of the ensure arm: error, the two short-circuit outcomes
(ImplementedElsewhere / "conflict") that skip the common tail, the newStatus
pointer, and the events so far. -/
structure EnsureOut where
  errMsg : Option String
  shortCircuit : Bool
  newStatus : Option LoadBalancerStatus
  events : List Event
deriving DecidableEq

/-- The ensure arm of `syncLoadBalancerIfNeeded` (controller.go lines
513-568): add the service finalizer, call `addEndpointSliceFinalizer` for
every slice, delete the old-identifier load balancer if that annotation is
non-empty (forcing newStatus to empty), then ensure the current-identifier
load balancer if that annotation is non-empty. -/
def syncEnsureBranch (p : Provider) (svc : Service) (epss : List EndpointSlice) :
    EnsureOut :=
  let evs0 := addFinalizer svc ++ (epss.map addEndpointSliceFinalizer).flatten
  let oldLbID := getStringFromServiceAnnot svc ServiceAnnotationLoadBalancerOldID emptyString
  let r1 := optDelete p oldLbID
  let st1 : Option LoadBalancerStatus :=
    if oldLbID.length != 0 then some emptyLBStatus else none
  if r1.1.isSome then ⟨r1.1, false, st1, evs0 ++ r1.2⟩
  else
    let lbID := getStringFromServiceAnnot svc ServiceAnnotationLoadBalancerID emptyString
    if lbID.length != 0 then
      match p.ensureLB lbID with
      | EnsureLBResult.implementedElsewhere =>
        ⟨none, true, st1, evs0 ++ r1.2 ++ [Event.provEnsure lbID]⟩
      | EnsureLBResult.failed msg =>
        if strContains msg.toLower strConflict then
          ⟨none, true, st1, evs0 ++ r1.2 ++ [Event.provEnsure lbID]⟩
        else ⟨some msg, false, st1, evs0 ++ r1.2 ++ [Event.provEnsure lbID]⟩
      | EnsureLBResult.ok none =>
        ⟨some nilStatusMsg, false, st1, evs0 ++ r1.2 ++ [Event.provEnsure lbID]⟩
      | EnsureLBResult.ok (some st) =>
        ⟨none, false, some st, evs0 ++ r1.2 ++ [Event.provEnsure lbID]⟩
    else ⟨none, false, st1, evs0 ++ r1.2⟩

/-- `loadBalancerOperation` from source. -/
inductive LoadBalancerOperation where
  | deleteLoadBalancer
  | ensureLoadBalancer
deriving DecidableEq

/-- Result of `syncLoadBalancerIfNeeded`: the operation tag, the error (if
the pass aborted) and the ordered events. -/
structure SyncOut where
  op : LoadBalancerOperation
  errMsg : Option String
  events : List Event
deriving DecidableEq

/-- `syncLoadBalancerIfNeeded` from source: the Delete arm when the service
no longer wants a load balancer or needs cleanup, the Ensure arm otherwise,
then the common tail unless an early return (error or short-circuit)
happened. `previousStatus` is saved up front. -/
def syncLoadBalancerIfNeeded (p : Provider) (svc : Service)
    (epss : List EndpointSlice) : SyncOut :=
  let previousStatus := svc.statusLoadBalancer
  if !wantsLoadBalancer svc || needsCleanup svc then
    let r := syncDeleteBranch p svc
    if r.1.isSome then ⟨LoadBalancerOperation.deleteLoadBalancer, r.1, r.2⟩
    else
      ⟨LoadBalancerOperation.deleteLoadBalancer, none,
        r.2 ++ syncCommonTail svc epss previousStatus (some emptyLBStatus)⟩
  else
    let r := syncEnsureBranch p svc epss
    if r.errMsg.isSome then ⟨LoadBalancerOperation.ensureLoadBalancer, r.errMsg, r.events⟩
    else if r.shortCircuit then ⟨LoadBalancerOperation.ensureLoadBalancer, none, r.events⟩
    else
      ⟨LoadBalancerOperation.ensureLoadBalancer, none,
        r.events ++ syncCommonTail svc epss previousStatus r.newStatus⟩

/-- The `serviceCache`: key → the `state` field of the cached entry (which
is a possibly-nil service pointer in the source). Reads take the first
matching key; writes replace. -/
abbrev ServiceCache := List (String × Option Service)

/-- `serviceCache.get`. -/
def cacheGet (cache : ServiceCache) (key : String) : Option (Option Service) :=
  (cache.find? (fun e => e.1 == key)).map (fun e => e.2)

/-- Map write: replace or insert the entry for the key. -/
def cacheSetState (cache : ServiceCache) (key : String) (st : Option Service) :
    ServiceCache :=
  (key, st) :: cache.filter (fun e => e.1 != key)

/-- `serviceCache.delete`. -/
def cacheDelete (cache : ServiceCache) (key : String) : ServiceCache :=
  cache.filter (fun e => e.1 != key)

/-- `serviceCache.getOrCreate`: the entry's state (nil for a fresh entry)
and the cache afterwards. -/
def cacheGetOrCreate (cache : ServiceCache) (key : String) :
    Option Service × ServiceCache :=
  match cacheGet cache key with
  | some st => (st, cache)
  | none => (none, cacheSetState cache key none)

/-- Result of a whole per-key pass: error, ordered events, cache afterwards. -/
structure PassOut where
  errMsg : Option String
  events : List Event
  cacheOut : ServiceCache
deriving DecidableEq

/-- The re-creation detection step of `processServiceCreateOrUpdate`: when a
cached state exists under a different UID, delete by the cached service's
current identifier annotation and then by its old one — with no emptiness
guard in the source, so the calls are made even with empty values. -/
def staleUIDDeletes (p : Provider) (stOpt : Option Service) (svc : Service) :
    Option String × List Event :=
  match stOpt with
  | some st =>
    if st.uid != svc.uid then
      let d1 := processLoadBalancerDelete p
        (getStringFromServiceAnnot st ServiceAnnotationLoadBalancerID emptyString)
      if d1.1.isSome then d1
      else
        let d2 := processLoadBalancerDelete p
          (getStringFromServiceAnnot st ServiceAnnotationLoadBalancerOldID emptyString)
        (d2.1, d1.2 ++ d2.2)
    else (none, [])
  | none => (none, [])

/-- `processServiceCreateOrUpdate` from source: run the re-creation
detection deletes, then cache the incoming service unconditionally, run
`syncLoadBalancerIfNeeded`, and drop the cache entry when the operation was
a successful delete. -/
def processServiceCreateOrUpdate (p : Provider) (cache : ServiceCache)
    (svc : Service) (key : String) (epss : List EndpointSlice) : PassOut :=
  let got := cacheGetOrCreate cache key
  let staleStep := staleUIDDeletes p got.1 svc
  if staleStep.1.isSome then ⟨staleStep.1, staleStep.2, got.2⟩
  else
    let cache2 := cacheSetState got.2 key (some svc)
    let syncOut := syncLoadBalancerIfNeeded p svc epss
    match syncOut.errMsg with
    | some e => ⟨some e, staleStep.2 ++ syncOut.events, cache2⟩
    | none =>
      match syncOut.op with
      | LoadBalancerOperation.deleteLoadBalancer =>
        ⟨none, staleStep.2 ++ syncOut.events, cacheDelete cache2 key⟩
      | LoadBalancerOperation.ensureLoadBalancer =>
        ⟨none, staleStep.2 ++ syncOut.events, cache2⟩

/-- `processServiceDeletion` from source: nothing to do without a cache
entry; otherwise delete by the cached service's current identifier
annotation, then by its old identifier annotation (both calls made with the
annotation's value, with no emptiness guard), and remove the cache entry on
success of both. A nil cached state would be a nil-pointer dereference in
the source; it is modelled as a distinguished error. -/
def processServiceDeletion (p : Provider) (cache : ServiceCache) (key : String) :
    PassOut :=
  match cacheGet cache key with
  | none => ⟨none, [], cache⟩
  | some none => ⟨some nilStateMsg, [], cache⟩
  | some (some st) =>
    let d1 := processLoadBalancerDelete p
      (getStringFromServiceAnnot st ServiceAnnotationLoadBalancerID emptyString)
    if d1.1.isSome then ⟨d1.1, d1.2, cache⟩
    else
      let d2 := processLoadBalancerDelete p
        (getStringFromServiceAnnot st ServiceAnnotationLoadBalancerOldID emptyString)
      if d2.1.isSome then ⟨d2.1, d1.2 ++ d2.2, cache⟩
      else ⟨none, d1.2 ++ d2.2, cacheDelete cache key⟩

/-- `minRetryDelay` from source, in seconds. -/
def minRetryDelay : Nat := 5

/-- `maxRetryDelay` from source, in seconds. -/
def maxRetryDelay : Nat := 300

/-- Result of one `syncService` handler run, as classified by
`processNextServiceItem`: success, an `api.RetryError` carrying its own
delay (seconds), or any other error. -/
inductive SyncErr where
  | retryError (afterSeconds : Nat)
  | generic (msg : String)
deriving DecidableEq

/-- The requeue decision of the dispatcher. -/
inductive QueueAction where
  | forget
  | addAfter (seconds : Nat)
  | addRateLimited
deriving DecidableEq

/-- `processNextServiceItem` from source, reduced to its requeue decision:
success → Forget; a RetryError → AddAfter its own delay; any other error →
AddRateLimited. -/
def processNextServiceItem (res : Option SyncErr) : QueueAction :=
  match res with
  | none => QueueAction.forget
  | some (SyncErr.retryError d) => QueueAction.addAfter d
  | some (SyncErr.generic _) => QueueAction.addRateLimited

/-- Modelled from the spec: the delay of the workqueue's per-item
exponential failure rate limiter that `New` constructs with
`(minRetryDelay, maxRetryDelay)` (client-go code, not under src/) —
base·2^failures capped at the maximum. -/
def itemExponentialFailureDelay (failures : Nat) : Nat :=
  min (minRetryDelay * 2 ^ failures) maxRetryDelay

/-- Modelled from the spec: effect of the dispatcher's queue action on the
key's failure count, and the resulting requeue delay in seconds (`none` =
not requeued). Forget resets the count; AddAfter bypasses the rate limiter;
AddRateLimited asks the limiter, which uses the current count and then
increments it. -/
def applyQueueAction (failures : Nat) (action : QueueAction) : Nat × Option Nat :=
  match action with
  | QueueAction.forget => (0, none)
  | QueueAction.addAfter d => (failures, some d)
  | QueueAction.addRateLimited => (failures + 1, some (itemExponentialFailureDelay failures))

/-! Concrete fixtures used by counterexamples and witnesses. -/

/-- A concrete load-balancer identifier. -/
def lbOne : String := "lb-1"

/-- A concrete load-balancer identifier. -/
def lbNine : String := "lb-9"

/-- A concrete load-balancer identifier. -/
def lbA : String := "lb-a"

/-- A concrete load-balancer identifier. -/
def lbB : String := "lb-b"

/-- A concrete cache key. -/
def keyC6 : String := "default/gone"

/-- A concrete cache key. -/
def keyW : String := "default/gone2"

/-- A concrete provider error message. -/
def msgBoom : String := "backend exploded"

/-- A concrete provider error message containing "not found". -/
def msgNotFound : String := "loadbalancer not found"

/-- A service that wants a load balancer and carries the current-identifier
annotation, no finalizer, not being deleted. -/
def svcEnsure1 : Service :=
  { ns := "default", name := "web", uid := "u1",
    specType := ServiceTypeLoadBalancer, loadBalancerClass := none,
    externalTrafficPolicy := "Cluster",
    annotations := [(ServiceAnnotationLoadBalancerID, lbOne)],
    finalizers := [], deletionTimestamp := none,
    statusLoadBalancer := ⟨[]⟩ }

/-- An EndpointSlice of that service carrying no cleanup finalizer. -/
def epsNoFin : EndpointSlice :=
  { ns := "default", name := "web-abc", addressType := "IPv4",
    labels := [("kubernetes.io/service-name", "web")],
    finalizers := [], deletionTimestamp := none }

/-- A provider whose deletes succeed and whose ensure returns a status. -/
def providerOkEnsure : Provider :=
  { deleteLB := fun _ => none,
    ensureLB := fun _ => EnsureLBResult.ok (some ⟨[⟨"1.2.3.4", emptyString, none, []⟩]⟩) }

/-- A provider whose deletes succeed and whose ensure returns an empty status. -/
def providerAllOk : Provider :=
  { deleteLB := fun _ => none,
    ensureLB := fun _ => EnsureLBResult.ok (some ⟨[]⟩) }

/-- A ClusterIP service with no finalizer but with a current-identifier
annotation left on it. -/
def svcClusterIPWithId : Service :=
  { ns := "default", name := "db", uid := "u2",
    specType := "ClusterIP", loadBalancerClass := none,
    externalTrafficPolicy := "Cluster",
    annotations := [(ServiceAnnotationLoadBalancerID, lbNine)],
    finalizers := [], deletionTimestamp := none,
    statusLoadBalancer := ⟨[]⟩ }

/-- A ClusterIP service with no finalizer and no annotations. -/
def svcClusterIPPlain : Service :=
  { ns := "default", name := "db2", uid := "u3",
    specType := "ClusterIP", loadBalancerClass := none,
    externalTrafficPolicy := "Cluster",
    annotations := [], finalizers := [], deletionTimestamp := none,
    statusLoadBalancer := ⟨[]⟩ }

/-- The same service identity as `svcClusterIPPlain` but a different UID and
no annotations, standing for a stale cached state. -/
def svcStaleCached : Service :=
  { ns := "default", name := "db2", uid := "u3-old",
    specType := ServiceTypeLoadBalancer, loadBalancerClass := none,
    externalTrafficPolicy := "Cluster",
    annotations := [], finalizers := [], deletionTimestamp := none,
    statusLoadBalancer := ⟨[]⟩ }

/-- A LoadBalancer-type service with external traffic policy "Local". -/
def svcEtpLocal : Service :=
  { ns := "default", name := "local-svc", uid := "u4",
    specType := ServiceTypeLoadBalancer, loadBalancerClass := none,
    externalTrafficPolicy := ExternalTrafficPolicyLocal,
    annotations := [], finalizers := [], deletionTimestamp := none,
    statusLoadBalancer := ⟨[]⟩ }

/-- A node whose NodeReady condition is False and which no other predicate
excludes. -/
def nodeNotReady : Node :=
  { name := "n1", providerID := "pid-1", labels := [], taintKeys := [],
    conditions := [(NodeReadyCond, "False")], deletionTimestamp := none }

/-- An eligible node named "a". -/
def nodeA : Node :=
  { name := "a", providerID := "pid-x", labels := [], taintKeys := [],
    conditions := [(NodeReadyCond, ConditionTrue)], deletionTimestamp := none }

/-- An eligible node named "b" with the same provider identifier as `nodeA`. -/
def nodeB : Node :=
  { name := "b", providerID := "pid-x", labels := [], taintKeys := [],
    conditions := [(NodeReadyCond, ConditionTrue)], deletionTimestamp := none }

/-- `nodeA` with a deletion timestamp set — same name and provider
identifier, a different value in a field no full-set predicate reads. -/
def nodeADel : Node :=
  { name := "a", providerID := "pid-x", labels := [], taintKeys := [],
    conditions := [(NodeReadyCond, ConditionTrue)], deletionTimestamp := some 3 }

/-- A LoadBalancer-type service with the default traffic policy. -/
def svcWantsLB : Service :=
  { ns := "default", name := "lbsvc", uid := "u5",
    specType := ServiceTypeLoadBalancer, loadBalancerClass := none,
    externalTrafficPolicy := "Cluster",
    annotations := [], finalizers := [], deletionTimestamp := none,
    statusLoadBalancer := ⟨[]⟩ }

/-- A node-sync provider whose update succeeds. -/
def npOk : NodeSyncProvider := { updateResult := UpdateLBResult.ok, getResult := some true }

/-- A node-sync provider whose update fails while the load balancer still
exists. -/
def npFail : NodeSyncProvider :=
  { updateResult := UpdateLBResult.failed msgBoom, getResult := some true }

/-- An EndpointSlice that needs cleanup: it carries the cleanup finalizer
and has a deletion timestamp. -/
def epsNeedingCleanup : EndpointSlice :=
  { ns := "default", name := "web-1", addressType := "IPv4",
    labels := [("kubernetes.io/service-name", "web")],
    finalizers := [EpsLoadBalancerCleanupFinalizer], deletionTimestamp := some 7 }

/-- A cached service state carrying neither identifier annotation. -/
def svcNoAnnot : Service :=
  { ns := "default", name := "gone", uid := "u6",
    specType := ServiceTypeLoadBalancer, loadBalancerClass := none,
    externalTrafficPolicy := "Cluster",
    annotations := [], finalizers := [], deletionTimestamp := none,
    statusLoadBalancer := ⟨[]⟩ }

/-- A cache holding `svcNoAnnot` under `keyC6`. -/
def cacheC6 : ServiceCache := [(keyC6, some svcNoAnnot)]

/-- A cached service state carrying both identifier annotations. -/
def svcCached6 : Service :=
  { ns := "default", name := "gone2", uid := "u7",
    specType := ServiceTypeLoadBalancer, loadBalancerClass := none,
    externalTrafficPolicy := "Cluster",
    annotations := [(ServiceAnnotationLoadBalancerID, lbA),
                    (ServiceAnnotationLoadBalancerOldID, lbB)],
    finalizers := [], deletionTimestamp := none,
    statusLoadBalancer := ⟨[]⟩ }

/-- A cache holding `svcCached6` under `keyW`. -/
def cache6 : ServiceCache := [(keyW, some svcCached6)]

/-- A provider whose every delete answers with a "not found" error. -/
def provider6 : Provider :=
  { deleteLB := fun _ => some msgNotFound,
    ensureLB := fun _ => EnsureLBResult.ok (some ⟨[]⟩) }

/-- A concrete IP-mode value. -/
def ipModeVIP : String := "VIP"

/-- A load-balancer status whose single ingress entry carries a non-nil
IP mode. In Go, the previously observed status (a `DeepCopy`) and the new
status (a fresh provider allocation) holding exactly these field values are
distinct allocations, so their `IPMode` pointers differ while the values
are equal. -/
def statusWithIPMode : LoadBalancerStatus :=
  ⟨[⟨"5.6.7.8", emptyString, some ipModeVIP, []⟩]⟩

/-- A LoadBalancer-type service being deleted, with both identifier
annotations present and the cleanup finalizer. -/
def svcDeleting : Service :=
  { ns := "default", name := "dying", uid := "u8",
    specType := ServiceTypeLoadBalancer, loadBalancerClass := none,
    externalTrafficPolicy := "Cluster",
    annotations := [(ServiceAnnotationLoadBalancerID, lbA),
                    (ServiceAnnotationLoadBalancerOldID, lbB)],
    finalizers := [ServiceLoadBalancerCleanupFinalizer], deletionTimestamp := some 1,
    statusLoadBalancer := ⟨[]⟩ }

/-! Helper lemmas (shared between claims). -/

/-- A tolerated delete (success or "not found") leaves
`processLoadBalancerDelete` with no error and exactly one delete call. -/
theorem processLoadBalancerDelete_tolerated (p : Provider) (lbId : String)
    (h : deleteTolerated p lbId = true) :
    processLoadBalancerDelete p lbId = (none, [Event.provDelete lbId]) := by
  unfold deleteTolerated at h
  unfold processLoadBalancerDelete
  cases hd : p.deleteLB lbId with
  | none => rfl
  | some msg =>
    rw [hd] at h
    have h2 : strContains msg strNotFound = true := h
    simp [h2]

/-- An EndpointSlice that needs cleanup carries the finalizer, so the
(inverted) guard of `removeEndpointSliceFinalizer` returns early. -/
theorem removeEndpointSliceFinalizer_of_needsCleanup (eps : EndpointSlice)
    (h : epsNeedsCleanup eps = true) :
    removeEndpointSliceFinalizer eps = [] := by
  unfold epsNeedsCleanup at h
  unfold removeEndpointSliceFinalizer
  by_cases hf : epsHasLBFinalizer eps = true
  · simp [hf]
  · simp [hf] at h

/-- `removeEndpointSliceFinalizerByService` never emits any event: slices
needing cleanup hit the inverted guard, the others are skipped. -/
theorem removeEndpointSliceFinalizerByService_nil (epss : List EndpointSlice) :
    removeEndpointSliceFinalizerByService epss = [] := by
  induction epss with
  | nil => rfl
  | cons eps rest ih =>
    unfold removeEndpointSliceFinalizerByService
    by_cases hc : epsNeedsCleanup eps = true
    · simp [hc, removeEndpointSliceFinalizer_of_needsCleanup eps hc, ih]
    · simp [hc, ih]

/-- Reading the tracker right after a write returns the written set. -/
theorem trackerGet_trackerSet (tracker : Tracker) (key : String) (nodes : List Node) :
    trackerGet (trackerSet tracker key nodes) key = nodes := by
  unfold trackerGet trackerSet
  simp [List.find?]

/-- The events of `processLoadBalancerDelete` are exactly one delete call. -/
theorem processLoadBalancerDelete_events (p : Provider) (lbId : String) :
    (processLoadBalancerDelete p lbId).2 = [Event.provDelete lbId] := by
  unfold processLoadBalancerDelete
  cases p.deleteLB lbId with
  | none => rfl
  | some msg =>
    by_cases h : strContains msg strNotFound = true
    · simp [h]
    · simp [h]

/-- `removeAnnotationLbId` emits no provider call. -/
theorem filterProv_removeAnnotationLbId (svc : Service) (annotKey : String) :
    (removeAnnotationLbId svc annotKey).filter Event.isProviderCall = [] := by
  unfold removeAnnotationLbId
  split
  · rfl
  · split
    · rfl
    · rfl

/-- `removeFinalizer` emits no provider call. -/
theorem filterProv_removeFinalizer (svc : Service) :
    (removeFinalizer svc).filter Event.isProviderCall = [] := by
  unfold removeFinalizer
  split
  · rfl
  · split
    · rfl
    · rfl

/-- `patchStatusEvents` emits no provider call. -/
theorem filterProv_patchStatusEvents (previousStatus : LoadBalancerStatus)
    (newStatus : Option LoadBalancerStatus) :
    (patchStatusEvents previousStatus newStatus).filter Event.isProviderCall = [] := by
  unfold patchStatusEvents
  cases newStatus with
  | none => rfl
  | some n =>
    by_cases h : LoadBalancerStatusEqual previousStatus n = true
    · simp [h]
    · simp [h, Event.isProviderCall]

/-- The common tail emits no provider call. -/
theorem filterProv_syncCommonTail (svc : Service) (epss : List EndpointSlice)
    (previousStatus : LoadBalancerStatus) (newStatus : Option LoadBalancerStatus) :
    (syncCommonTail svc epss previousStatus newStatus).filter Event.isProviderCall = [] := by
  unfold syncCommonTail
  rw [List.filter_append, List.filter_append]
  rw [removeEndpointSliceFinalizerByService_nil, filterProv_removeAnnotationLbId,
    filterProv_patchStatusEvents]
  rfl

/-- `removeFinalizer` emits no annotation-removing patch. -/
theorem filterRA_removeFinalizer (svc : Service) :
    (removeFinalizer svc).filter Event.isRemoveAnnot = [] := by
  unfold removeFinalizer
  split
  · rfl
  · split
    · rfl
    · rfl

/-- `addFinalizer` emits no annotation-removing patch. -/
theorem filterRA_addFinalizer (svc : Service) :
    (addFinalizer svc).filter Event.isRemoveAnnot = [] := by
  unfold addFinalizer
  split
  · rfl
  · rfl

/-- `patchStatusEvents` emits no annotation-removing patch. -/
theorem filterRA_patchStatusEvents (previousStatus : LoadBalancerStatus)
    (newStatus : Option LoadBalancerStatus) :
    (patchStatusEvents previousStatus newStatus).filter Event.isRemoveAnnot = [] := by
  unfold patchStatusEvents
  cases newStatus with
  | none => rfl
  | some n =>
    by_cases h : LoadBalancerStatusEqual previousStatus n = true
    · simp [h]
    · simp [h, Event.isRemoveAnnot]

/-- The events of `processLoadBalancerDelete` hold no annotation-removing
patch. -/
theorem filterRA_processLoadBalancerDelete (p : Provider) (lbId : String) :
    ((processLoadBalancerDelete p lbId).2).filter Event.isRemoveAnnot = [] := by
  rw [processLoadBalancerDelete_events]
  rfl

/-- A service with a deletion timestamp: `removeAnnotationLbId` is a no-op
for every annotation key. -/
theorem removeAnnotationLbId_deleting (svc : Service) (annotKey : String)
    (h : svc.deletionTimestamp.isSome = true) :
    removeAnnotationLbId svc annotKey = [] := by
  unfold removeAnnotationLbId
  simp [h]

/-- The flattened `addEndpointSliceFinalizer` events of any slice list are
empty. -/
theorem addEpsFinalizer_flatten_nil (epss : List EndpointSlice) :
    (epss.map addEndpointSliceFinalizer).flatten = [] := by
  induction epss with
  | nil => rfl
  | cons eps rest ih => simp [addEndpointSliceFinalizer, ih]

/-- A guarded delete with an empty identifier makes no call. -/
theorem optDelete_empty (p : Provider) : optDelete p emptyString = (none, []) := rfl

/-- The events of a guarded delete hold no annotation-removing patch. -/
theorem filterRA_optDelete (p : Provider) (lbId : String) :
    ((optDelete p lbId).2).filter Event.isRemoveAnnot = [] := by
  unfold optDelete
  split
  · exact filterRA_processLoadBalancerDelete p lbId
  · rfl

/-- The first component of `cacheGetOrCreate` is the flattened cache read. -/
theorem cacheGetOrCreate_fst (cache : ServiceCache) (key : String) :
    (cacheGetOrCreate cache key).1 = (cacheGet cache key).join := by
  unfold cacheGetOrCreate
  cases cacheGet cache key <;> rfl

/-- The re-creation detection step is a silent no-op when the cached state
is nil or carries the same UID. -/
theorem staleUIDDeletes_same (p : Provider) (stOpt : Option Service) (svc : Service)
    (h : ∀ st : Service, stOpt = some st → st.uid = svc.uid) :
    staleUIDDeletes p stOpt svc = (none, []) := by
  cases stOpt with
  | none => rfl
  | some st =>
    have heq := h st rfl
    unfold staleUIDDeletes
    simp [heq]

/-- With both identifier annotations empty and no finalizer, a pass of
`syncLoadBalancerIfNeeded` over a service that does not want a load
balancer emits no provider call. -/
theorem filterProv_sync_no_ids (p : Provider) (svc : Service) (epss : List EndpointSlice)
    (hw : wantsLoadBalancer svc = false)
    (hf : svcHasLBFinalizer svc = false)
    (hid : getStringFromServiceAnnot svc ServiceAnnotationLoadBalancerID emptyString =
      emptyString)
    (hold : getStringFromServiceAnnot svc ServiceAnnotationLoadBalancerOldID emptyString =
      emptyString) :
    ((syncLoadBalancerIfNeeded p svc epss).events).filter Event.isProviderCall = [] := by
  have hnc : needsCleanup svc = false := by
    unfold needsCleanup
    simp [hf]
  unfold syncLoadBalancerIfNeeded syncDeleteBranch
  rw [hid, hold, optDelete_empty]
  simp [hw, hnc, List.filter_append, filterProv_removeFinalizer,
    filterProv_removeAnnotationLbId, filterProv_syncCommonTail]

/-! Claim theorems. -/

/-- C1: the claim says the Ensure branch adds the cleanup finalizer to every
associated EndpointSlice before any provider call. In the source
`addEndpointSliceFinalizer` begins with `return nil`, so no EndpointSlice
finalizer patch is ever issued: on a concrete Ensure pass over a slice
without the finalizer, a provider call happens and the event trace holds no
add-EndpointSlice-finalizer patch at all. -/
theorem c1_eps_finalizer_never_added :
    (∀ eps : EndpointSlice, addEndpointSliceFinalizer eps = []) ∧
    (syncLoadBalancerIfNeeded providerOkEnsure svcEnsure1 [epsNoFin]).events.filter
      Event.isAddEpsFinalizer = [] ∧
    (syncLoadBalancerIfNeeded providerOkEnsure svcEnsure1 [epsNoFin]).events.any
      Event.isProviderCall = true :=
  ⟨fun _ => rfl, by decide, by decide⟩

/-- C2 counterexample: the claim says a service that does not want a load
balancer and carries no finalizer gets no provider call. Two concrete
refutations: a ClusterIP service with no finalizer but a current-identifier
annotation gets a provider delete for that identifier; and a ClusterIP
service with no finalizer and no annotations, whose cache entry carries a
different UID, gets two provider deletes (with empty identifiers). -/
theorem c2_counterexample :
    (wantsLoadBalancer svcClusterIPWithId = false ∧
     svcHasLBFinalizer svcClusterIPWithId = false ∧
     (processServiceCreateOrUpdate providerAllOk [] svcClusterIPWithId
        (svcKey svcClusterIPWithId) []).events.filter Event.isProviderCall =
       [Event.provDelete lbNine]) ∧
    (wantsLoadBalancer svcClusterIPPlain = false ∧
     svcHasLBFinalizer svcClusterIPPlain = false ∧
     lookupAnnot svcClusterIPPlain ServiceAnnotationLoadBalancerID = none ∧
     lookupAnnot svcClusterIPPlain ServiceAnnotationLoadBalancerOldID = none ∧
     (processServiceCreateOrUpdate providerAllOk
        [(svcKey svcClusterIPPlain, some svcStaleCached)] svcClusterIPPlain
        (svcKey svcClusterIPPlain) []).events.filter Event.isProviderCall =
       [Event.provDelete emptyString, Event.provDelete emptyString]) := by
  decide

/-- C3: the claim says that for an external-traffic-policy "Local" service
with the stable-node-set flag off, the predicate set drops readiness so a
NotReady node stays eligible. In the source `etpLocalNodePredicates` still
contains `nodeReadyPredicate`: the set chosen for such a service rejects a
NotReady node, while the spec's reduced set would accept it. -/
theorem c3_etpLocal_retains_readiness :
    getNodePredicatesForService false svcEtpLocal = etpLocalNodePredicates ∧
    respectsPredicates nodeNotReady (getNodePredicatesForService false svcEtpLocal) = false ∧
    respectsPredicates nodeNotReady specEtpLocalNodePredicates = true :=
  ⟨rfl, by decide, by decide⟩

/-- C4 counterexample: the claim says equal provider-identifier-keyed
projections suppress the update-backends call regardless of other fields
such as the name. `nodesSufficientlyEqual` keys its maps by node name, so
two singleton sets with the same provider identifier but different names
trigger an update call. -/
theorem c4_counterexample :
    nodeA.providerID = nodeB.providerID ∧
    (nodeSyncService false npOk (some [nodeB]) [(svcKey svcWantsLB, [nodeA])]
      (some svcWantsLB)).updateCalled = true := by
  decide

/-- C5: the claim says the common tail removes the cleanup finalizer from
every associated EndpointSlice that needs cleanup. The guard of
`removeEndpointSliceFinalizer` is inverted (`if HasLBFinalizer { return nil }`),
so a slice that needs cleanup — shown on a concrete one carrying the
finalizer with a deletion timestamp — is returned untouched, and
`removeEndpointSliceFinalizerByService` never emits any patch. -/
theorem c5_eps_finalizer_never_removed :
    epsNeedsCleanup epsNeedingCleanup = true ∧
    removeEndpointSliceFinalizer epsNeedingCleanup = [] ∧
    (∀ epss : List EndpointSlice, removeEndpointSliceFinalizerByService epss = []) :=
  ⟨by decide, by decide, removeEndpointSliceFinalizerByService_nil⟩

/-- C6 counterexample: the claim says the deletion path invokes the provider
delete for the current identifier annotation (if set) and for the old one
(if set). On a cache entry whose service carries neither annotation, the
source still makes both provider delete calls, with empty identifiers. -/
theorem c6_counterexample :
    lookupAnnot svcNoAnnot ServiceAnnotationLoadBalancerID = none ∧
    lookupAnnot svcNoAnnot ServiceAnnotationLoadBalancerOldID = none ∧
    (processServiceDeletion providerAllOk cacheC6 keyC6).events =
      [Event.provDelete emptyString, Event.provDelete emptyString] := by
  decide

/-- C6 (amended): on the deletion path, no cache entry means success with no
provider call; with a cache entry, the provider delete is invoked with the
current identifier annotation's value and then, independently, with the old
identifier annotation's value (the value is the empty string when the
annotation is unset); a "not found" delete error counts as success, and
when both deletes succeed the cache entry is removed. -/
theorem c6_amended_deletion_path (p : Provider) (cache : ServiceCache) (key : String) :
    (cacheGet cache key = none →
      processServiceDeletion p cache key = ⟨none, [], cache⟩) ∧
    (∀ st : Service, cacheGet cache key = some (some st) →
      deleteTolerated p
        (getStringFromServiceAnnot st ServiceAnnotationLoadBalancerID emptyString) = true →
      deleteTolerated p
        (getStringFromServiceAnnot st ServiceAnnotationLoadBalancerOldID emptyString) = true →
      processServiceDeletion p cache key =
        ⟨none,
         [Event.provDelete
            (getStringFromServiceAnnot st ServiceAnnotationLoadBalancerID emptyString),
          Event.provDelete
            (getStringFromServiceAnnot st ServiceAnnotationLoadBalancerOldID emptyString)],
         cacheDelete cache key⟩) := by
  constructor
  · intro hnone
    unfold processServiceDeletion
    rw [hnone]
  · intro st hget h1 h2
    unfold processServiceDeletion
    rw [hget]
    simp [processLoadBalancerDelete_tolerated p _ h1,
      processLoadBalancerDelete_tolerated p _ h2]

/-- C6 witness: the amended theorem applied to a concrete cache entry whose
deletes answer "not found". -/
theorem c6_amended_witness :
    processServiceDeletion provider6 cache6 keyW =
      ⟨none,
       [Event.provDelete
          (getStringFromServiceAnnot svcCached6 ServiceAnnotationLoadBalancerID emptyString),
        Event.provDelete
          (getStringFromServiceAnnot svcCached6 ServiceAnnotationLoadBalancerOldID emptyString)],
       cacheDelete cache6 keyW⟩ :=
  (c6_amended_deletion_path provider6 cache6 keyW).2 svcCached6 (by decide) (by decide)
    (by decide)

/-- C8: the dispatcher's requeue policy — success forgets the key (backoff
state reset to zero); an error carrying an explicit retry-after is requeued
after exactly that delay without growing the failure count; any other error
goes through the exponential rate limiter, whose delay is at least
`minRetryDelay` (5s) and at most `maxRetryDelay` (300s), and grows the
failure count. -/
theorem c8_requeue_policy (failures d : Nat) (msg : String) :
    applyQueueAction failures (processNextServiceItem none) = (0, none) ∧
    applyQueueAction failures (processNextServiceItem (some (SyncErr.retryError d))) =
      (failures, some d) ∧
    applyQueueAction failures (processNextServiceItem (some (SyncErr.generic msg))) =
      (failures + 1, some (itemExponentialFailureDelay failures)) ∧
    minRetryDelay ≤ itemExponentialFailureDelay failures ∧
    itemExponentialFailureDelay failures ≤ maxRetryDelay := by
  refine ⟨rfl, rfl, rfl, ?_, ?_⟩
  · unfold itemExponentialFailureDelay
    refine le_min ?_ ?_
    · exact le_mul_of_one_le_right (Nat.zero_le _) Nat.one_le_two_pow
    · unfold minRetryDelay maxRetryDelay
      norm_num
  · unfold itemExponentialFailureDelay
    exact min_le_right _ _

/-- C9 counterexample: the claim says statuses equal under the field-wise
comparison of the ingress entries (IP, hostname, IP-mode) produce no API
write. The source compares the IP-mode field as pointers, and at the call
site the two statuses are distinct fresh allocations: for a status whose
ingress entry carries a non-nil IP mode, a previously observed status and a
new status with identical field values still compare unequal and the write
is issued. -/
theorem c9_counterexample :
    specStatusEqual statusWithIPMode statusWithIPMode = true ∧
    patchStatus (some statusWithIPMode) (some statusWithIPMode) = true := by
  decide

/-- C9 (amended): a status write is issued exactly when the new status
differs from the previously observed one under the source's comparison —
IP and hostname compared by value and IP-mode compared as pointers, under
which (both statuses being fresh allocations at the call site) two ingress
entries compare equal exactly when their IPs and hostnames agree and
neither carries an IP mode; equal statuses under this comparison, or a nil
new status, produce no write. -/
theorem c9_amended_status_write_criterion (prev n : LoadBalancerStatus) :
    ((patchStatus (some prev) (some n) = true) ↔ LoadBalancerStatusEqual prev n = false) ∧
    patchStatus (some prev) none = false ∧
    (∀ lhs rhs : LoadBalancerIngress,
      ingressEqual lhs rhs = true ↔
        (lhs.ip = rhs.ip ∧ lhs.hostname = rhs.hostname ∧
         lhs.ipMode = none ∧ rhs.ipMode = none)) := by
  refine ⟨?_, rfl, ?_⟩
  · unfold patchStatus
    by_cases h : LoadBalancerStatusEqual prev n = true
    · simp [h]
    · simp [h]
  · intro lhs rhs
    unfold ingressEqual ipModePointerEqual
    by_cases h1 : lhs.ip = rhs.ip <;> by_cases h2 : lhs.hostname = rhs.hostname <;>
      cases hm1 : lhs.ipMode <;> cases hm2 : rhs.ipMode <;>
      simp [h1, h2, hm1, hm2]

/-- C2 (amended): if the service does not want a load balancer, carries no
cleanup finalizer, neither identifier annotation carries a non-empty value,
and the cache holds no state with a different UID for the key, then a
reconciliation pass over it makes no provider call. -/
theorem c2_amended_no_provider_call (p : Provider) (cache : ServiceCache) (svc : Service)
    (key : String) (epss : List EndpointSlice)
    (hw : wantsLoadBalancer svc = false)
    (hf : svcHasLBFinalizer svc = false)
    (hid : getStringFromServiceAnnot svc ServiceAnnotationLoadBalancerID emptyString =
      emptyString)
    (hold : getStringFromServiceAnnot svc ServiceAnnotationLoadBalancerOldID emptyString =
      emptyString)
    (hstale : ∀ st : Service, cacheGet cache key = some (some st) → st.uid = svc.uid) :
    (processServiceCreateOrUpdate p cache svc key epss).events.filter
      Event.isProviderCall = [] := by
  have hsync := filterProv_sync_no_ids p svc epss hw hf hid hold
  have hstale2 : ∀ st : Service, (cacheGetOrCreate cache key).1 = some st →
      st.uid = svc.uid := by
    intro st hj
    rw [cacheGetOrCreate_fst] at hj
    cases hcg : cacheGet cache key with
    | none => rw [hcg] at hj; cases hj
    | some o =>
      cases o with
      | none => rw [hcg] at hj; cases hj
      | some st2 =>
        rw [hcg] at hj
        have hst : st2 = st := by simpa using hj
        exact hst ▸ hstale st2 hcg
  have hss : staleUIDDeletes p (cacheGetOrCreate cache key).1 svc = (none, []) :=
    staleUIDDeletes_same p _ svc hstale2
  simp only [processServiceCreateOrUpdate]
  rw [hss]
  simp only [Option.isSome_none, Bool.false_eq_true, if_false]
  repeat' split
  all_goals simp [hsync]

/-- C2 witness: the amended theorem applied to a plain ClusterIP service
with an empty cache. -/
theorem c2_amended_witness :
    (processServiceCreateOrUpdate providerAllOk [] svcClusterIPPlain
      (svcKey svcClusterIPPlain) []).events.filter Event.isProviderCall = [] :=
  c2_amended_no_provider_call providerAllOk [] svcClusterIPPlain
    (svcKey svcClusterIPPlain) [] (by decide) (by decide) (by decide) (by decide)
    (fun st hj => by simp [cacheGet] at hj)

/-- C4 (amended): if the old and new filtered node sets have equal length
and their name-keyed provider-identifier maps are equal, the node-resync
pass for the service makes no update-backends call; differences in node
fields other than name and provider identifier cannot trigger an update. -/
theorem c4_amended_name_keyed (stableNodeSetEnabled : Bool) (p : NodeSyncProvider)
    (nodes : List Node) (tracker : Tracker) (svc : Service)
    (hw : wantsLoadBalancer svc = true)
    (hlen : (filterWithPredicates (trackerGet tracker (svcKey svc))
        (getNodePredicatesForService stableNodeSetEnabled svc)).length =
      (filterWithPredicates nodes (getNodePredicatesForService stableNodeSetEnabled svc)).length)
    (hmap : nodeMapsEqual
        (filterWithPredicates (trackerGet tracker (svcKey svc))
          (getNodePredicatesForService stableNodeSetEnabled svc))
        (filterWithPredicates nodes
          (getNodePredicatesForService stableNodeSetEnabled svc)) = true) :
    (nodeSyncService stableNodeSetEnabled p (some nodes) tracker
      (some svc)).updateCalled = false := by
  have hse : nodesSufficientlyEqual
      (filterWithPredicates (trackerGet tracker (svcKey svc))
        (getNodePredicatesForService stableNodeSetEnabled svc))
      (filterWithPredicates nodes (getNodePredicatesForService stableNodeSetEnabled svc)) =
      true := by
    unfold nodesSufficientlyEqual
    rw [hlen, hmap]
    simp
  unfold nodeSyncService
  simp [hw, hse]

/-- C4 witness: the amended theorem applied to a tracker set and a lister
set that agree on names and provider identifiers but differ on the deletion
timestamp — no update call happens. -/
theorem c4_amended_witness :
    nodeA ≠ nodeADel ∧
    (nodeSyncService false npOk (some [nodeADel]) [(svcKey svcWantsLB, [nodeA])]
      (some svcWantsLB)).updateCalled = false :=
  ⟨by decide,
   c4_amended_name_keyed false npOk [nodeADel] [(svcKey svcWantsLB, [nodeA])] svcWantsLB
     (by decide) (by decide) (by decide)⟩

/-- C7: whenever the node-resync pass for a service computes the new
eligible node set (the service wants a load balancer and the node list
succeeded), the tracker entry for the service's key is replaced with that
set, whatever the provider's update outcome — success, failure, or the
comparison skipping the update. -/
theorem c7_tracker_replaced_unconditionally (stableNodeSetEnabled : Bool)
    (p : NodeSyncProvider) (nodes : List Node) (tracker : Tracker) (svc : Service)
    (hw : wantsLoadBalancer svc = true) :
    trackerGet
        ((nodeSyncService stableNodeSetEnabled p (some nodes) tracker (some svc)).tracker)
        (svcKey svc) =
      filterWithPredicates nodes (getNodePredicatesForService stableNodeSetEnabled svc) := by
  simp only [nodeSyncService, hw, Bool.not_true, Bool.false_eq_true, if_false]
  repeat' split
  all_goals exact trackerGet_trackerSet _ _ _

/-- C7 witness: the theorem applied with a provider whose update fails —
the tracker entry is still replaced with the computed set. -/
theorem c7_witness :
    trackerGet ((nodeSyncService false npFail (some [nodeA]) [] (some svcWantsLB)).tracker)
        (svcKey svcWantsLB) =
      filterWithPredicates [nodeA] (getNodePredicatesForService false svcWantsLB) :=
  c7_tracker_replaced_unconditionally false npFail [nodeA] [] svcWantsLB (by decide)

/-- C10: for a service with a deletion timestamp, the annotation-stripping
operation is a no-op for every annotation key, and consequently a
reconciliation pass over the service emits no annotation-removing patch at
all — both identifier annotations stay on the object. -/
theorem c10_deleting_service_annots_untouched (p : Provider) (svc : Service)
    (epss : List EndpointSlice) (t : Nat) (h : svc.deletionTimestamp = some t) :
    (∀ annotKey : String, removeAnnotationLbId svc annotKey = []) ∧
    (syncLoadBalancerIfNeeded p svc epss).events.filter Event.isRemoveAnnot = [] := by
  have hdts : svc.deletionTimestamp.isSome = true := by rw [h]; rfl
  have hra : ∀ annotKey : String, removeAnnotationLbId svc annotKey = [] :=
    fun k => removeAnnotationLbId_deleting svc k hdts
  refine ⟨hra, ?_⟩
  have htail : ∀ prevSt newSt,
      (syncCommonTail svc epss prevSt newSt).filter Event.isRemoveAnnot = [] := by
    intro prevSt newSt
    unfold syncCommonTail
    rw [removeEndpointSliceFinalizerByService_nil, hra]
    simp [filterRA_patchStatusEvents]
  have hdel : ((syncDeleteBranch p svc).2).filter Event.isRemoveAnnot = [] := by
    simp only [syncDeleteBranch]
    rw [hra]
    repeat' split
    all_goals simp [List.filter_append, filterRA_optDelete, filterRA_removeFinalizer]
  have hens : ((syncEnsureBranch p svc epss).events).filter Event.isRemoveAnnot = [] := by
    simp only [syncEnsureBranch]
    repeat' split
    all_goals simp [List.filter_append, filterRA_optDelete, filterRA_addFinalizer,
      addEpsFinalizer_flatten_nil, Event.isRemoveAnnot]
  simp only [syncLoadBalancerIfNeeded]
  repeat' split
  all_goals simp [List.filter_append, hdel, hens, htail]

/-- C10 witness: the theorem applied to a deleting service carrying both
identifier annotations. -/
theorem c10_witness :
    (∀ annotKey : String, removeAnnotationLbId svcDeleting annotKey = []) ∧
    (syncLoadBalancerIfNeeded providerAllOk svcDeleting []).events.filter
      Event.isRemoveAnnot = [] :=
  c10_deleting_service_annots_untouched providerAllOk svcDeleting [] 1 (by decide)

end CloudProvider
